import Mathlib

/-!
Verification development for the fluorescence-analysis backend.

Shallow embedding of:
* `backend/app/services/algorithms/fluorescence_algo.py`
  (z-score trial extraction, trial collection, time-warping, run scanning,
  aggregation into matrices/curves, channel-column detection),
* `backend/app/services/job_registry.py` and
  `backend/app/services/fluorescence_service.py` (job state machine and the
  orchestrator's update trace),
* `backend/app/utils/tag_selector.py` and the submission validation in
  `backend/app/routers/fluorescence.py`.

Modelling conventions:
* Python floats are modelled as exact numbers: raw samples, times and rates
  are `ℚ`; values produced by `np.std`/`np.sqrt` (square roots) live in `ℝ`.
* `int(x)` is truncation toward zero (`pyInt`), `a // b` on naturals is `Nat`
  division, `xs[a:b]` for clamped nonnegative bounds is `pySlice`.
* `np.polyfit(x, y, 1)[0]` is modelled by the closed-form first-degree
  least-squares slope `polyfitSlope`; its optimality is proved below
  (`polyfitSlope_isBestFit`), so the model is justified rather than assumed.
* `np.std` is the population standard deviation `Real.sqrt ∘ variance`.  The
  source branch `np.std(xs) > 1e-10` is embedded as the equivalent decidable
  rational test `1/10^20 < variance xs` (both sides of the source comparison
  are nonnegative, so the tests agree; see `std_gt_iff_var_gt`).
* A raised `ValueError` is an `Except.error` carrying the source's message;
  distinct error conditions of the recording parser are the constructors of
  `LoadErrorQ` (the spec's `MissingChannelPair` / `NoChannelsFound`).
-/

namespace SciPlatform

/-- Python `int(x)` on an exact rational: truncation toward zero
(equivalently `q.num.tdiv q.den`). -/
def pyInt (q : ℚ) : ℤ :=
  if 0 ≤ q then ⌊q⌋ else -⌊-q⌋

/-- Python slice `xs[a:b]` for nonnegative clamped bounds `a b ≤ len xs`. -/
def pySlice (xs : List ℚ) (a b : ℕ) : List ℚ :=
  (xs.take b).drop a

/-- Mean of a list of rationals (`np.mean`; callers ensure nonemptiness). -/
def qMean (xs : List ℚ) : ℚ :=
  xs.sum / xs.length

/-- Population variance of a list of rationals (the square of `np.std`). -/
def qVar (xs : List ℚ) : ℚ :=
  ((xs.map (fun x => (x - qMean xs) ^ 2)).sum) / xs.length

/-! ### First-degree least squares (model of `np.polyfit(x, y, 1)[0]`) -/

/-- Sum of the x-coordinates of a paired data set. -/
def Sx (d : List (ℚ × ℚ)) : ℚ := (d.map Prod.fst).sum

/-- Sum of the y-coordinates of a paired data set. -/
def Sy (d : List (ℚ × ℚ)) : ℚ := (d.map Prod.snd).sum

/-- Sum of the squared x-coordinates of a paired data set. -/
def Sxx (d : List (ℚ × ℚ)) : ℚ := (d.map (fun p => p.1 ^ 2)).sum

/-- Sum of the products x·y of a paired data set. -/
def Sxy (d : List (ℚ × ℚ)) : ℚ := (d.map (fun p => p.1 * p.2)).sum

/-- Denominator `n·Σx² - (Σx)²` of the least-squares slope. -/
def lsqDenom (d : List (ℚ × ℚ)) : ℚ := (d.length : ℚ) * Sxx d - Sx d ^ 2

/-- Numerator `n·Σxy - Σx·Σy` of the least-squares slope. -/
def lsqNumer (d : List (ℚ × ℚ)) : ℚ := (d.length : ℚ) * Sxy d - Sx d * Sy d

/-- Closed-form first-degree least-squares slope, the model of
`np.polyfit(xs, ys, 1)[0]` used by the source at lines 276 and 481. -/
def polyfitSlope (xs ys : List ℚ) : ℚ :=
  lsqNumer (xs.zip ys) / lsqDenom (xs.zip ys)

/-- Least-squares intercept paired with a slope `k`. -/
def lsqIntercept (d : List (ℚ × ℚ)) (k : ℚ) : ℚ :=
  (Sy d - k * Sx d) / (d.length : ℚ)

/-- Squared loss of the affine fit `y ≈ m·x + c` on a paired data set. -/
def sqLoss (d : List (ℚ × ℚ)) (m c : ℚ) : ℚ :=
  (d.map (fun p => (p.2 - m * p.1 - c) ^ 2)).sum

/-- `k` is a first-degree least-squares slope for the data: together with its
paired intercept it minimizes the squared loss over all affine fits. -/
def IsBestFitSlope (d : List (ℚ × ℚ)) (k : ℚ) : Prop :=
  ∀ m c : ℚ, sqLoss d k (lsqIntercept d k) ≤ sqLoss d m c

/-! ### `calculate_df_f_zscore` (fluorescence_algo.py lines 224-300) -/

/-- Arguments of `calculate_df_f_zscore`. -/
structure ZIn where
  s410 : List ℚ
  s470 : List ℚ
  fps : ℚ
  baselineStart : ℚ
  baselineEnd : ℚ
  eventTime : ℚ
  windowStart : ℚ
  windowEnd : ℚ

/-- `event_idx = int(event_time * fps)` (line 255). -/
def eventIdx (a : ZIn) : ℤ := pyInt (a.eventTime * a.fps)

/-- `baseline_start_idx`, clamped below at 0 (lines 256, 262). -/
def bStartIdx (a : ZIn) : ℤ := max 0 (eventIdx a + pyInt (a.baselineStart * a.fps))

/-- `baseline_end_idx`, clamped above at the signal length (lines 257, 263). -/
def bEndIdx (a : ZIn) : ℤ :=
  min (a.s410.length : ℤ) (eventIdx a + pyInt (a.baselineEnd * a.fps))

/-- `window_start_idx`, clamped below at 0 (lines 258, 264). -/
def wStartIdx (a : ZIn) : ℤ := max 0 (eventIdx a + pyInt (a.windowStart * a.fps))

/-- `window_end_idx`, clamped above at the signal length (lines 259, 265). -/
def wEndIdx (a : ZIn) : ℤ :=
  min (a.s410.length : ℤ) (eventIdx a + pyInt (a.windowEnd * a.fps))

/-- Negation of the `Invalid time window indices` check at line 267. -/
def zWindowsValid (a : ZIn) : Prop :=
  bStartIdx a < bEndIdx a ∧ wStartIdx a < wEndIdx a

instance (a : ZIn) : Decidable (zWindowsValid a) :=
  inferInstanceAs (Decidable (_ ∧ _))

/-- `baseline_410 = signal_410[baseline_start_idx:baseline_end_idx]` (line 271). -/
def baseline410 (a : ZIn) : List ℚ :=
  pySlice a.s410 (bStartIdx a).toNat (bEndIdx a).toNat

/-- `baseline_470 = signal_470[baseline_start_idx:baseline_end_idx]` (line 272). -/
def baseline470 (a : ZIn) : List ℚ :=
  pySlice a.s470 (bStartIdx a).toNat (bEndIdx a).toNat

/-- The motion-correction coefficient: the fitted slope when the clamped
baseline has more than one sample, else `1.0` (lines 275-278). -/
def kCoef (a : ZIn) : ℚ :=
  if 1 < (baseline410 a).length then polyfitSlope (baseline410 a) (baseline470 a) else 1

/-- `F_full = signal_470 - k * signal_410`, over the whole recording (line 281). -/
def F_full (a : ZIn) : List ℚ :=
  List.zipWith (fun v470 v410 => v470 - kCoef a * v410) a.s470 a.s410

/-- `F_window = F_full[window_start_idx:window_end_idx]` (line 284). -/
def F_window (a : ZIn) : List ℚ :=
  pySlice (F_full a) (wStartIdx a).toNat (wEndIdx a).toNat

/-- `F_baseline = F_full[baseline_start_idx:baseline_end_idx]` (line 285). -/
def F_baseline (a : ZIn) : List ℚ :=
  pySlice (F_full a) (bStartIdx a).toNat (bEndIdx a).toNat

/-- `baseline_mean = np.mean(F_baseline)` (line 288). -/
def baselineMean (a : ZIn) : ℚ := qMean (F_baseline a)

/-- Population variance of `F_baseline`; `np.std(F_baseline)` squared. -/
def baselineVar (a : ZIn) : ℚ := qVar (F_baseline a)

/-- `baseline_std = np.std(F_baseline)` (line 289). -/
noncomputable def baselineStd (a : ZIn) : ℝ := Real.sqrt (baselineVar a)

/-- The trial values (lines 292-295).  The source branches on
`baseline_std > 1e-10`; since `baseline_std = √baselineVar` and both sides are
nonnegative this is equivalent to the decidable test `1/10^20 < baselineVar`
(proved as `std_gt_iff_var_gt`). -/
noncomputable def zTrial (a : ZIn) : List ℝ :=
  if (1 / 10 ^ 20 : ℚ) < baselineVar a then
    (F_window a).map (fun v => ((v - baselineMean a : ℚ) : ℝ) / baselineStd a)
  else
    (F_window a).map (fun v => ((v - baselineMean a : ℚ) : ℝ))

/-- `time_axis = np.arange(len(F_window)) / fps + window_start` (line 298). -/
def zTimeAxis (a : ZIn) : List ℚ :=
  (List.range (F_window a).length).map (fun i => (i : ℚ) / a.fps + a.windowStart)

/-- `calculate_df_f_zscore` (lines 224-300): z-score trial extraction for a
single event.  Raises `Invalid time window indices` when either clamped
window is degenerate, otherwise returns the normalized window and its axis. -/
noncomputable def calculate_df_f_zscore (a : ZIn) :
    Except String (List ℝ × List ℚ) :=
  if zWindowsValid a then .ok (zTrial a, zTimeAxis a)
  else .error "Invalid time window indices"

/-! ### Data model (fluorescence_algo.py lines 16-42) -/

/-- A labelled behavioural event (`LabelEvent`). -/
structure LabelEventQ where
  label : String
  start_time : ℚ
  stop_time : ℚ
  is_point : Bool := false
deriving DecidableEq

/-- A channel (`Channel`): motion reference (410nm) and indicator (470nm). -/
structure ChannelQ where
  name : String
  baseline_410 : List ℚ
  signal_470 : List ℚ
deriving DecidableEq

/-- A dataset (`Dataset`), restricted to the fields the algorithms read. -/
structure DatasetQ where
  data_item_id : ℤ
  channels : List ChannelQ
  events : List LabelEventQ
deriving DecidableEq

/-! ### `calculate_df_f` (fluorescence_algo.py lines 303-388) -/

/-- Result dictionary of `calculate_df_f` / `calculate_df_f_warping`. -/
structure DfFResultQ where
  df_f : List (List ℝ)
  time_axis : List ℚ
  trial_ids : List String

/-- Event filtering at line 335: an empty (or absent) filter keeps every
event, otherwise events whose label is in the filter are kept. -/
def filteredEvents (eventFilter : List String) (events : List LabelEventQ) :
    List LabelEventQ :=
  events.filter (fun e => eventFilter.isEmpty || eventFilter.contains e.label)

/-- The `ZIn` record for one event of `calculate_df_f`'s loop: the combined
window spans baseline and response (lines 346-347, 357-366). -/
def zInFor (ch : ChannelQ) (fps : ℚ) (bw rw : ℚ × ℚ) (eventTime : ℚ) : ZIn :=
  { s410 := ch.baseline_410
    s470 := ch.signal_470
    fps := fps
    baselineStart := bw.1
    baselineEnd := bw.2
    eventTime := eventTime
    windowStart := min bw.1 rw.1
    windowEnd := max bw.2 rw.2 }

/-- The per-event loop of `calculate_df_f` (lines 353-376): each successful
extraction contributes `(trial, axis, "trial_i_label")`; a failing event is
skipped.  Input events are paired with their index in the filtered list. -/
noncomputable def collectTrials (ch : ChannelQ) (fps : ℚ) (bw rw : ℚ × ℚ) :
    List (ℕ × LabelEventQ) → List (List ℝ × List ℚ × String)
  | [] => []
  | (i, e) :: rest =>
    match calculate_df_f_zscore (zInFor ch fps bw rw e.start_time) with
    | .ok (d, t) =>
      (d, t, "trial_" ++ toString i ++ "_" ++ e.label) ::
        collectTrials ch fps bw rw rest
    | .error _ => collectTrials ch fps bw rw rest

/-- `np.vstack` on a list of 1-D rows: fails unless all rows share the
length of the first row. -/
def vstack (rows : List (List ℝ)) : Except String (List (List ℝ)) :=
  if rows.all (fun r => r.length = (rows.headD []).length) then .ok rows
  else .error "all the input array dimensions must match"

/-- `calculate_df_f` (lines 303-388): returns the empty result when no event
matches the filter; raises `No valid trials could be processed` when events
matched but none yielded a trial; otherwise stacks the trials (the stack
itself raises if trial lengths disagree) and reports the first trial's axis. -/
noncomputable def calculate_df_f (ch : ChannelQ) (events : List LabelEventQ)
    (bw rw : ℚ × ℚ) (fps : ℚ) (eventFilter : List String) :
    Except String DfFResultQ :=
  let fes := filteredEvents eventFilter events
  if fes.isEmpty then .ok ⟨[], [], []⟩
  else
    let trials := collectTrials ch fps bw rw fes.enum
    if trials.isEmpty then .error "No valid trials could be processed"
    else
      match vstack (trials.map (fun t => t.1)) with
      | .error msg => .error msg
      | .ok m =>
        .ok ⟨m, (trials.headD ([], [], "")).2.1, trials.map (fun t => t.2.2)⟩

/-! ### Row/column statistics and curve aggregation -/

/-- Mean of a list of reals (`np.mean`). -/
noncomputable def rowMean (r : List ℝ) : ℝ := r.sum / r.length

/-- Population variance of a list of reals (the square of `np.std`). -/
noncomputable def rowVar (r : List ℝ) : ℝ :=
  ((r.map (fun x => (x - rowMean r) ^ 2)).sum) / r.length

/-- `calculate_zscore` (lines 391-398): per-row z-score with the `1e-10`
regularizer added to the standard deviation. -/
noncomputable def calculate_zscore (m : List (List ℝ)) : List (List ℝ) :=
  m.map (fun r =>
    r.map (fun x => (x - rowMean r) / (Real.sqrt (rowVar r) + 1 / 10 ^ 10)))

/-- Number of columns of a stacked matrix (rows have equal length). -/
def matWidth (m : List (List ℝ)) : ℕ := (m.headD []).length

/-- Column `j` of a stacked matrix. -/
def matCol (m : List (List ℝ)) (j : ℕ) : List ℝ := m.map (fun r => r.getD j 0)

/-- `np.mean(m, axis=0)`: columnwise mean. -/
noncomputable def colMean (m : List (List ℝ)) : List ℝ :=
  (List.range (matWidth m)).map (fun j => rowMean (matCol m j))

/-- `np.std(m, axis=0)`: columnwise population standard deviation. -/
noncomputable def colStd (m : List (List ℝ)) : List ℝ :=
  (List.range (matWidth m)).map (fun j => Real.sqrt (rowVar (matCol m j)))

/-- The SEM vector of lines 610 and 691: `std/sqrt(n)` for more than one
trial, an all-zero vector (`np.zeros_like(mean)`) for a single trial. -/
noncomputable def semCurve (m : List (List ℝ)) : List ℝ :=
  if 1 < m.length then (colStd m).map (fun s => s / Real.sqrt (m.length : ℝ))
  else List.replicate (matWidth m) 0

/-- One matrix entry of an `AnalysisResult`. -/
structure MatrixEntryQ where
  key : String
  heatmap : List (List ℝ)
  xAxis : List ℚ
  trialIds : List String

/-- One curve entry of an `AnalysisResult`. -/
structure CurveEntryQ where
  key : String
  mean : List ℝ
  sem : List ℝ
  xAxis : List ℚ

/-- The guarded curve emission duplicated at lines 608-617 and 689-698: a
nonempty matrix yields one mean/SEM curve, an empty one yields no curve. -/
noncomputable def curveFor (key : String) (m : List (List ℝ)) (tax : List ℚ) :
    List CurveEntryQ :=
  if 0 < m.length then [⟨key, colMean m, semCurve m, tax⟩] else []

/-! ### `analyze_single_event` (fluorescence_algo.py lines 630-704) -/

/-- Parameters consumed by the single-event analysis. -/
structure SingleParamsQ where
  fps : ℚ
  events : List String
  baseline_window : ℚ × ℚ
  response_window : ℚ × ℚ
  output_zscore : Bool
  algorithm_type : String

/-- The per-event-label loop of `analyze_single_event` (lines 657-698): a
label whose result is empty is skipped; otherwise its matrix (optionally
re-normalized by `calculate_zscore`) and curve are appended.  An exception
from `calculate_df_f` propagates: the loop is not wrapped in a handler. -/
noncomputable def processLabels (ch : ChannelQ) (events : List LabelEventQ)
    (p : SingleParamsQ) :
    List String → Except String (List MatrixEntryQ × List CurveEntryQ)
  | [] => .ok ([], [])
  | l :: ls =>
    match calculate_df_f ch events p.baseline_window p.response_window
        p.fps [l] with
    | .error msg => .error msg
    | .ok r =>
      match processLabels ch events p ls with
      | .error msg => .error msg
      | .ok rest =>
        if r.df_f.isEmpty then .ok rest
        else
          let m := if p.output_zscore && !(p.algorithm_type = "zscore") then
              calculate_zscore r.df_f
            else r.df_f
          .ok (⟨ch.name ++ "/" ++ l, m, r.time_axis, r.trial_ids⟩ :: rest.1,
               curveFor (ch.name ++ "/" ++ l) m r.time_axis ++ rest.2)

/-- The per-channel loop of `analyze_single_event` (line 655). -/
noncomputable def processChannels (events : List LabelEventQ)
    (p : SingleParamsQ) :
    List ChannelQ → Except String (List MatrixEntryQ × List CurveEntryQ)
  | [] => .ok ([], [])
  | ch :: chs =>
    match processLabels ch events p p.events with
    | .error msg => .error msg
    | .ok a =>
      match processChannels events p chs with
      | .error msg => .error msg
      | .ok b => .ok (a.1 ++ b.1, a.2 ++ b.2)

/-- `analyze_single_event` (lines 630-704), producing the matrices and curves
of the `AnalysisResult`.  Any error raised below it propagates. -/
noncomputable def analyze_single_event :
    List DatasetQ → SingleParamsQ →
    Except String (List MatrixEntryQ × List CurveEntryQ)
  | [], _ => .ok ([], [])
  | d :: ds, p =>
    match processChannels d.events p d.channels with
    | .error msg => .error msg
    | .ok a =>
      match analyze_single_event ds p with
      | .error msg => .error msg
      | .ok b => .ok (a.1 ++ b.1, a.2 ++ b.2)

/-! ### Time warping (fluorescence_algo.py lines 401-532) -/

/-- Linear interpolation of a segment onto `targetLength` equally spaced
sample points (lines 432-436).  Models `scipy.interpolate.interp1d` with
`kind='linear'` on the uniform grids `linspace(0,1,len seg)` and
`linspace(0,1,targetLength)`; on those grids the interpolant at output
index `j` sits at fractional input position `j·(L-1)/(T-1)`. -/
def linTerp (seg : List ℚ) (targetLength : ℕ) : List ℚ :=
  (List.range targetLength).map (fun j =>
    let pos : ℚ := (j : ℚ) * ((seg.length - 1 : ℕ) : ℚ) / ((targetLength - 1 : ℕ) : ℚ)
    let i : ℕ := (⌊pos⌋).toNat
    let frac : ℚ := pos - ⌊pos⌋
    if i + 1 < seg.length then
      seg.getD i 0 + frac * (seg.getD (i + 1) 0 - seg.getD i 0)
    else seg.getD i 0)

/-- The per-interval loop of `time_warp_signal` (lines 422-437): an interval
with `start ≥ end` or `end` beyond the signal is skipped, and a sliced
segment contributes a warped segment only when it has more than one sample. -/
def segmentsOf (signal : List ℚ) (events : List ℤ) (targetLength : ℕ) :
    List (List ℚ) :=
  (events.zip events.tail).filterMap (fun se =>
    if se.2 ≤ se.1 ∨ (signal.length : ℤ) < se.2 then none
    else
      let seg := pySlice signal se.1.toNat se.2.toNat
      if 1 < seg.length then some (linTerp seg targetLength) else none)

/-- `time_warp_signal` (lines 401-445): fewer than two event indices return
the signal unchanged; no usable interval returns the signal truncated or
zero-padded to the target length; otherwise the warped segments are
concatenated. -/
def time_warp_signal (signal : List ℚ) (events : List ℤ)
    (targetLength : ℕ) : List ℚ :=
  if events.length < 2 then signal
  else
    let ws := segmentsOf signal events targetLength
    if ws.isEmpty then
      if targetLength ≤ signal.length then signal.take targetLength
      else signal ++ List.replicate (targetLength - signal.length) 0
    else ws.flatten

/-- One warped trial of `calculate_df_f_warping` (lines 491-505): warp the
corrected signal along the group's event sample indices, then normalize by
the mean/std of the warped signal's first 20% (the source branches on
`np.std > 1e-10`, embedded as the equivalent variance test). -/
noncomputable def warpTrial (F : List ℚ) (fps : ℚ) (targetLength : ℕ)
    (grp : List LabelEventQ) : List ℝ :=
  let eventTimes := grp.map (fun e => pyInt (e.start_time * fps))
  let w := time_warp_signal F eventTimes targetLength
  let bslice := w.take (w.length / 5)
  if (1 / 10 ^ 20 : ℚ) < qVar bslice then
    w.map (fun x => ((x - qMean bslice : ℚ) : ℝ) / Real.sqrt (qVar bslice))
  else w.map (fun x => ((x - qMean bslice : ℚ) : ℝ))

/-- The enumerated group loop of `calculate_df_f_warping` (lines 487-508):
groups with fewer than two events are skipped, and trial ids carry the
group's position among all groups. -/
noncomputable def warpTrials (F : List ℚ) (fps : ℚ) (targetLength : ℕ) :
    List (ℕ × List LabelEventQ) → List (List ℝ × String)
  | [] => []
  | (i, g) :: rest =>
    if g.length < 2 then warpTrials F fps targetLength rest
    else (warpTrial F fps targetLength g, "trial_" ++ toString i) ::
      warpTrials F fps targetLength rest

/-- `np.pad(r, (0, n - len r), mode='edge')`: extend with the last value. -/
def padEdge (r : List ℝ) (n : ℕ) : List ℝ :=
  r ++ List.replicate (n - r.length) (r.getLastD 0)

/-- `np.linspace(0, 1, n)`. -/
def linspace01 (n : ℕ) : List ℚ :=
  (List.range n).map (fun j => (j : ℚ) / ((n - 1 : ℕ) : ℚ))

/-- `calculate_df_f_warping` (lines 448-532): motion correction fitted on the
first 10% of the recording, one warped normalized trial per event group with
at least two events, `No valid trial groups could be processed` when no
group qualifies, and trials reconciled to the longest length by edge-padding
or truncation before stacking.  The `responseWindow` argument mirrors the
source's `response_window` parameter, which its body never reads. -/
noncomputable def calculate_df_f_warping (ch : ChannelQ)
    (eventGroups : List (List LabelEventQ)) (fps : ℚ)
    (responseWindow : ℚ × ℚ) (targetSegmentLength : ℕ) :
    Except String DfFResultQ :=
  let s410 := ch.baseline_410
  let s470 := ch.signal_470
  let baselineLen := s410.length / 10
  let k := polyfitSlope (s410.take baselineLen) (s470.take baselineLen)
  let F := List.zipWith (fun v470 v410 => v470 - k * v410) s470 s410
  let trials := warpTrials F fps targetSegmentLength eventGroups.enum
  if trials.isEmpty then .error "No valid trial groups could be processed"
  else
    let maxLen := (trials.map (fun t => t.1.length)).foldl max 0
    let dfp := trials.map (fun t =>
      if t.1.length < maxLen then padEdge t.1 maxLen else t.1.take maxLen)
    .ok ⟨dfp, linspace01 maxLen, trials.map (fun t => t.2)⟩

/-! ### Run scanning and `time_warp_alignment` (lines 535-627) -/

/-- The run-scanning loop of `time_warp_alignment` (lines 569-579): events
satisfying the predicate extend the current run; an event outside it closes
the run, which is kept only when it has at least two elements; a pending run
of at least two elements is kept at the end. -/
def scanRuns {α : Type} (p : α → Bool) (cur : List α) :
    List α → List (List α)
  | [] => if 2 ≤ cur.length then [cur] else []
  | e :: rest =>
    if p e then scanRuns p (cur ++ [e]) rest
    else (if 2 ≤ cur.length then [cur] else []) ++ scanRuns p [] rest

/-- Specification-side decomposition of a list into its maximal runs of
consecutive elements satisfying `p` (elements outside `p` are dropped and
delimit the runs): each run is a longest block `takeWhile p` of consecutive
satisfying elements.  Stated independently of the source's accumulator loop;
`scanRuns_eq_specRuns` proves the loop returns exactly these runs filtered
to length at least two. -/
def specRuns {α : Type} (p : α → Bool) : List α → List (List α)
  | [] => []
  | x :: xs =>
    if p x then (x :: xs.takeWhile p) :: specRuns p (xs.dropWhile p)
    else specRuns p xs
termination_by l => l.length
decreasing_by
  · simp only [List.length_cons]
    exact Nat.lt_succ_of_le (List.dropWhile_sublist p).length_le
  · simp

/-- `sorted(dataset.events, key=lambda e: e.start_time)` (line 570); Python's
sort and `List.mergeSort` are both stable. -/
def sortedByStart (evs : List LabelEventQ) : List LabelEventQ :=
  evs.mergeSort (fun a b => a.start_time ≤ b.start_time)

/-- The event sequences scanned for one group on one dataset
(lines 564-579). -/
def eventSequences (labels : List String) (evs : List LabelEventQ) :
    List (List LabelEventQ) :=
  scanRuns (fun e => labels.contains e.label) [] (sortedByStart evs)

/-- A named multi-event group (`{'groupName'/'name', 'events'}`). -/
structure GroupQ where
  name : String
  events : List String
deriving DecidableEq

/-- The parameters `time_warp_alignment` reads from `AnalysisParams`. -/
structure MultiParamsQ where
  fps : ℚ
  response_window : Option (ℚ × ℚ)

/-- Pointwise append of (matrices, curves) accumulators. -/
def pairAppend (a b : List MatrixEntryQ × List CurveEntryQ) :
    List MatrixEntryQ × List CurveEntryQ :=
  (a.1 ++ b.1, a.2 ++ b.2)

/-- The per-channel body of `time_warp_alignment` (lines 581-621): a channel
with no event sequences is skipped, an exception from the warping
computation is caught and the channel skipped, otherwise one matrix entry
and the guarded curve entry are produced. -/
noncomputable def twaChannel (groupName : String)
    (seqs : List (List LabelEventQ)) (p : MultiParamsQ) (ch : ChannelQ) :
    List MatrixEntryQ × List CurveEntryQ :=
  if seqs.isEmpty then ([], [])
  else
    match calculate_df_f_warping ch seqs p.fps
        (p.response_window.getD (0, 6)) 100 with
    | .error _ => ([], [])
    | .ok r =>
      ([⟨ch.name ++ "/" ++ groupName, r.df_f, r.time_axis, r.trial_ids⟩],
       curveFor (ch.name ++ "/" ++ groupName) r.df_f r.time_axis)

/-- The per-dataset body of `time_warp_alignment` (lines 563-621). -/
noncomputable def twaDataset (g : GroupQ) (p : MultiParamsQ) (d : DatasetQ) :
    List MatrixEntryQ × List CurveEntryQ :=
  let seqs := eventSequences g.events d.events
  (d.channels.map (twaChannel g.name seqs p)).foldr pairAppend ([], [])

/-- The per-group body of `time_warp_alignment` (lines 556-621). -/
noncomputable def twaGroup (datasets : List DatasetQ) (p : MultiParamsQ)
    (g : GroupQ) : List MatrixEntryQ × List CurveEntryQ :=
  (datasets.map (twaDataset g p)).foldr pairAppend ([], [])

/-- `time_warp_alignment` (lines 535-627), producing the matrices and curves
of the multi-event `AnalysisResult`. -/
noncomputable def time_warp_alignment (datasets : List DatasetQ)
    (groups : List GroupQ) (p : MultiParamsQ) :
    List MatrixEntryQ × List CurveEntryQ :=
  (groups.map (twaGroup datasets p)).foldr pairAppend ([], [])

/-! ### Channel-column detection (`load_fluorescence_data`, lines 102-153) -/

/-- Whitespace trimming of a character list (Python's `str.strip` applied at
line 108 before matching). -/
def trimChars (cs : List Char) : List Char :=
  ((cs.dropWhile Char.isWhitespace).reverse.dropWhile Char.isWhitespace).reverse

/-- Case-insensitive match of a trimmed column name against the pattern
`^CH(\d+)-(410|470)$` (line 104), returning the channel number's digits and
the matched wavelength. -/
def parseChannelCol (s : String) : Option (String × String) :=
  match trimChars s.toList with
  | c :: h :: rest =>
    if (c = 'C' ∨ c = 'c') ∧ (h = 'H' ∨ h = 'h') then
      let digits := rest.takeWhile Char.isDigit
      let tail := rest.dropWhile Char.isDigit
      if digits.isEmpty then none
      else if tail = ['-', '4', '1', '0'] then some (String.mk digits, "410")
      else if tail = ['-', '4', '7', '0'] then some (String.mk digits, "470")
      else none
    else none
  | _ => none

/-- One step of building `channel_cols` (lines 106-114): a parsed column is
recorded under its channel number (insertion order preserved, matching a
Python dict), storing the column name under its wavelength. -/
def addCol (acc : List (String × Option String × Option String))
    (c : String) : List (String × Option String × Option String) :=
  match parseChannelCol c with
  | none => acc
  | some (n, wl) =>
    if acc.any (fun e => e.1 = n) then
      acc.map (fun e =>
        if e.1 = n then
          if wl = "410" then (e.1, some c, e.2.2) else (e.1, e.2.1, some c)
        else e)
    else
      acc ++ [(n, if wl = "410" then some c else none,
               if wl = "470" then some c else none)]

/-- `channel_cols` (lines 106-114): the per-channel wavelength columns in
first-seen order. -/
def channelCols (cols : List String) :
    List (String × Option String × Option String) :=
  cols.foldl addCol []

/-- The recording parser's failure conditions (the spec's
`MissingChannelPair` and `NoChannelsFound`, raised as `ValueError`s at
lines 120 and 150). -/
inductive LoadErrorQ
  | missingChannelPair (chNum : String)
  | noChannelsFound
deriving DecidableEq

/-- The channel-validation loop (lines 117-147): the first channel number
missing one of its two wavelength columns raises; otherwise each pair
becomes a channel named `CH<n>`. -/
def buildChannels :
    List (String × Option String × Option String) →
    Except LoadErrorQ (List String)
  | [] => .ok []
  | (n, w410, w470) :: rest =>
    if w410.isNone ∨ w470.isNone then .error (.missingChannelPair n)
    else
      match buildChannels rest with
      | .error e => .error e
      | .ok cs => .ok (("CH" ++ n) :: cs)

/-- Channel detection of `load_fluorescence_data` (lines 102-153): detect and
pair wavelength columns, then fail with `NoChannelsFound` when no valid pair
exists (line 149). -/
def detectChannels (cols : List String) : Except LoadErrorQ (List String) :=
  match buildChannels (channelCols cols) with
  | .error e => .error e
  | .ok cs => if cs.isEmpty then .error .noChannelsFound else .ok cs

/-! ### Tag-based selection (tag_selector.py lines 14-73) and submission
validation (routers/fluorescence.py lines 175-180) -/

/-- A value appearing in a tag id list: an integer id, or a non-integer
value (the source validates with `isinstance(tid, int)`). -/
inductive TagIdQ
  | intId (i : ℤ)
  | strId (s : String)
deriving DecidableEq

/-- The `isinstance(tid, int)` projection. -/
def TagIdQ.toInt? : TagIdQ → Option ℤ
  | .intId i => some i
  | .strId _ => none

/-- A data item as seen by the tag selector. -/
structure TagItemQ where
  id : ℤ
  projectId : ℤ
  itemType : String
  tags : List ℤ
deriving DecidableEq

/-- A tag predicate: the `and` and `or` lists of the filter dict. -/
structure TagFilterQ where
  andTags : List TagIdQ
  orTags : List TagIdQ
deriving DecidableEq

/-- `select_by_tags` (tag_selector.py lines 14-73): empty predicate returns
no items; a non-empty tag list containing no valid integer id
returns no items; otherwise items of the project (optionally type-filtered)
matching every valid AND tag and, when OR tags are given, at least one valid
OR tag. -/
def select_by_tags (items : List TagItemQ) (projectId : ℤ)
    (tf : TagFilterQ) (itemType : Option String) : List TagItemQ :=
  if tf.andTags.isEmpty && tf.orTags.isEmpty then []
  else
    let q0 := items.filter (fun it => it.projectId = projectId)
    let q1 := match itemType with
      | some t => q0.filter (fun it => it.itemType = t)
      | none => q0
    let validAnd := tf.andTags.filterMap TagIdQ.toInt?
    if !tf.andTags.isEmpty && validAnd.isEmpty then []
    else
      let q2 := if !tf.andTags.isEmpty then
          q1.filter (fun it => validAnd.all (fun t => it.tags.contains t))
        else q1
      let validOr := tf.orTags.filterMap TagIdQ.toInt?
      if !tf.orTags.isEmpty && validOr.isEmpty then []
      else if !tf.orTags.isEmpty then
        q2.filter (fun it => it.tags.any (fun t => validOr.contains t))
      else q2

/-- A client data selection (`DataSelection`): explicit ids and/or a tag
filter; an absent/empty id list and an absent filter are both falsy. -/
structure DataSelectionQ where
  dataItemIds : List ℤ
  tagFilter : Option TagFilterQ

/-- The selection validation of `submit_analysis` (routers/fluorescence.py
line 176): rejected with HTTP 400 before any job is created. -/
def submit_selection_check (sel : DataSelectionQ) : Except String Unit :=
  if sel.dataItemIds.isEmpty && sel.tagFilter.isNone then
    .error "Must provide dataItemIds or tagFilter"
  else .ok ()

/-- `resolve_data_items` (fluorescence_service.py lines 40-63). -/
def resolve_data_items (items : List TagItemQ) (projectId : ℤ)
    (sel : DataSelectionQ) : List TagItemQ :=
  if !sel.dataItemIds.isEmpty then
    items.filter (fun it =>
      sel.dataItemIds.contains it.id && it.projectId = projectId)
  else
    match sel.tagFilter with
    | some tf => select_by_tags items projectId tf none
    | none => []

/-! ### Job registry and orchestrator trace (job_registry.py lines 14-102,
fluorescence_service.py lines 218-337) -/

/-- `JobStatus`. -/
inductive JobStatusQ
  | queued
  | running
  | succeeded
  | failed
deriving DecidableEq

/-- Terminal statuses. -/
def JobStatusQ.isTerminal : JobStatusQ → Bool
  | .succeeded => true
  | .failed => true
  | _ => false

/-- Position of a status along `queued → running → {succeeded, failed}`. -/
def JobStatusQ.rank : JobStatusQ → ℕ
  | .queued => 0
  | .running => 1
  | .succeeded => 2
  | .failed => 2

/-- The mutable per-job state tracked by the registry. -/
structure JobStateQ where
  status : JobStatusQ
  progress : ℕ
  message : String
  error : Option String
deriving DecidableEq

/-- `create_job` (job_registry.py lines 34-70): status `queued`,
progress `0`. -/
def create_job : JobStateQ :=
  ⟨.queued, 0, "Task queued", none⟩

/-- `update_job` (job_registry.py lines 72-102): each field is overwritten
only when the corresponding argument is present. -/
def update_job (j : JobStateQ) (status : Option JobStatusQ)
    (progress : Option ℕ) (message : Option String)
    (error : Option String) : JobStateQ :=
  { status := status.getD j.status
    progress := progress.getD j.progress
    message := message.getD j.message
    error := match error with
      | some e => some e
      | none => j.error }

/-- The successive `update_job` calls of `execute_analysis`'s successful path
before its terminal transition (fluorescence_service.py lines 235-317);
dynamic message fragments (counts) are elided. -/
def progressUpdates : List (Option JobStatusQ × Option ℕ × String) :=
  [(some .running, some 5, "Resolving data selection..."),
   (none, some 10, "Found data items"),
   (none, some 20, "Building datasets..."),
   (none, some 40, "Built datasets"),
   (none, some 50, "Running analysis algorithm..."),
   (none, some 80, "Analysis completed, formatting results..."),
   (none, some 90, "Saving results...")]

/-- Apply one scripted progress update. -/
def applyUpdate (j : JobStateQ)
    (u : Option JobStatusQ × Option ℕ × String) : JobStateQ :=
  update_job j u.1 u.2.1 (some u.2.2) none

/-- The job snapshots of a successful `execute_analysis` run: creation, the
seven progress updates, then the `succeeded` transition (lines 321-326). -/
def successTrace : List JobStateQ :=
  let tr := List.scanl applyUpdate create_job progressUpdates
  tr ++ [update_job (tr.getLastD create_job) (some .succeeded) (some 100)
    (some "Analysis completed successfully") none]

/-- The job snapshots of a failing `execute_analysis` run in which the
exception is raised after `k + 1` progress updates (an exception can occur
anywhere inside the `try` block, whose first statement is the `running`
update): the handler at lines 328-336 applies
`update_job(status=FAILED, progress=0, message="Analysis failed",
error=str(e))`. -/
def failTrace (k : Fin 7) (msg : String) : List JobStateQ :=
  let tr := List.scanl applyUpdate create_job (progressUpdates.take (k.val + 1))
  tr ++ [update_job (tr.getLastD create_job) (some .failed) (some 0)
    (some "Analysis failed") (some msg)]

/-- The final snapshot of a trace. -/
def finalSnapshot (tr : List JobStateQ) : JobStateQ :=
  tr.getLastD create_job

/-- Legal evolution between two consecutive job snapshots: the status moves
only forward along `queued → running → {succeeded, failed}`, a `queued` job
can only stay `queued` or start `running` (no skipping), a terminal snapshot
never changes, and progress does not decrease except at the terminal
transition itself. -/
def stepOK (a b : JobStateQ) : Prop :=
  a.status.rank ≤ b.status.rank
  ∧ (a.status = .queued → b.status = .queued ∨ b.status = .running)
  ∧ (a.status.isTerminal = true → b = a)
  ∧ (b.status.isTerminal = false → a.progress ≤ b.progress)

instance (a b : JobStateQ) : Decidable (stepOK a b) :=
  inferInstanceAs (Decidable (_ ∧ _ ∧ _ ∧ _))

/-! ### Concrete instances used by witnesses and counterexamples -/

/-- A concrete z-score input: five samples, event at `t = 3 s`, baseline
window `(-3, 0)`, extraction window `(0, 2)`, `fps = 1`. -/
def zW : ZIn :=
  { s410 := [0, 1, 2, 9, 9]
    s470 := [0, 1, 3, 9, 9]
    fps := 1
    baselineStart := -3
    baselineEnd := 0
    eventTime := 3
    windowStart := 0
    windowEnd := 2 }

/-- A ten-sample all-zero channel. -/
def zeroChannel : ChannelQ :=
  ⟨"CH1", List.replicate 10 0, List.replicate 10 0⟩

/-- Two events of the same label, one close to the recording start (its
extraction window is clamped) and one interior. -/
def c9events : List LabelEventQ :=
  [⟨"E", 1, 1, true⟩, ⟨"E", 5, 5, true⟩]

/-- Two events of distinct labels: one interior, one far beyond the end of
the recording (its windows collapse after clamping). -/
def c3events : List LabelEventQ :=
  [⟨"E1", 5, 5, true⟩, ⟨"E2", 100, 100, true⟩]

/-- Single-event parameters over labels `E1` and `E2`. -/
def c3params : SingleParamsQ :=
  ⟨1, ["E1", "E2"], (-2, 0), (0, 2), false, "zscore"⟩

/-- A dataset holding the all-zero channel and the two `c3events`. -/
def c3dataset : DatasetQ :=
  ⟨1, [zeroChannel], c3events⟩

/-- Number of stacked trials of a `calculate_df_f` outcome (`0` on error). -/
def dfLenOf (r : Except String DfFResultQ) : ℕ :=
  match r with
  | .ok x => x.df_f.length
  | .error _ => 0

/-- The annotation sequence `A, B, A, B, C` at one-second spacing. -/
def abEvents : List LabelEventQ :=
  [⟨"A", 1, 1, true⟩, ⟨"B", 2, 2, true⟩, ⟨"A", 3, 3, true⟩,
   ⟨"B", 4, 4, true⟩, ⟨"C", 5, 5, true⟩]

/-- A data item of project 1 carrying tag 5. -/
def c8item : TagItemQ :=
  ⟨1, 1, "csv", [5]⟩

/-- A concrete two-by-two trial matrix. -/
noncomputable def c7matrix : List (List ℝ) :=
  [[1, 2], [3, 4]]

/-- The z-score arguments produced by `calculate_df_f` for the event at
`t = 1 s` of `c9events` (extraction window clamped at the recording start). -/
def c9a1 : ZIn := zInFor zeroChannel 1 (-2, 0) (0, 2) 1

/-- The z-score arguments for an interior event at `t = 5 s` (no clamping). -/
def c9a2 : ZIn := zInFor zeroChannel 1 (-2, 0) (0, 2) 5

/-- The z-score arguments for another interior event at `t = 6 s`. -/
def c9a3 : ZIn := zInFor zeroChannel 1 (-2, 0) (0, 2) 6

/-- The z-score arguments for the event at `t = 100 s` of `c3events`, far
beyond the end of the recording: both windows collapse after clamping. -/
def c3a2 : ZIn := zInFor zeroChannel 1 (-2, 0) (0, 2) 100

/-- Number of trial ids of a `calculate_df_f` outcome (`0` on error). -/
def idsLenOf (r : Except String DfFResultQ) : ℕ :=
  match r with
  | .ok x => x.trial_ids.length
  | .error _ => 0

/-- Whether a `calculate_df_f` outcome is a success. -/
def okOf (r : Except String DfFResultQ) : Bool :=
  match r with
  | .ok _ => true
  | .error _ => false

/-! ## General lemmas -/

theorem pyInt_intCast (n : ℤ) : pyInt ((n : ℚ)) = n := by
  unfold pyInt
  split
  · exact Int.floor_intCast n
  · rw [show (-(n : ℚ)) = ((-n : ℤ) : ℚ) by push_cast; ring, Int.floor_intCast]
    ring

theorem pyInt_eq {q : ℚ} {n : ℤ} (h : q = (n : ℚ)) : pyInt q = n := by
  rw [h, pyInt_intCast]

theorem qVar_nonneg (xs : List ℚ) : 0 ≤ qVar xs := by
  unfold qVar
  apply div_nonneg
  · apply List.sum_nonneg
    intro x hx
    obtain ⟨y, _, rfl⟩ := List.mem_map.mp hx
    positivity
  · positivity

theorem std_gt_iff_var_gt (v : ℚ) (hv : 0 ≤ v) :
    (1 / 10 ^ 10 : ℝ) < Real.sqrt (v : ℝ) ↔ (1 / 10 ^ 20 : ℚ) < v := by
  rw [Real.lt_sqrt (by positivity)]
  rw [show ((1 : ℝ) / 10 ^ 10) ^ 2 = ((1 / 10 ^ 20 : ℚ) : ℝ) by push_cast; norm_num]
  exact_mod_cast Iff.rfl

theorem Sx_cons (p : ℚ × ℚ) (d : List (ℚ × ℚ)) : Sx (p :: d) = p.1 + Sx d := by
  simp [Sx]

theorem Sy_cons (p : ℚ × ℚ) (d : List (ℚ × ℚ)) : Sy (p :: d) = p.2 + Sy d := by
  simp [Sy]

theorem Sxx_cons (p : ℚ × ℚ) (d : List (ℚ × ℚ)) :
    Sxx (p :: d) = p.1 ^ 2 + Sxx d := by
  simp [Sxx]

theorem Sxy_cons (p : ℚ × ℚ) (d : List (ℚ × ℚ)) :
    Sxy (p :: d) = p.1 * p.2 + Sxy d := by
  simp [Sxy]

theorem sum_resid (d : List (ℚ × ℚ)) (k b : ℚ) :
    (d.map (fun p => p.2 - k * p.1 - b)).sum
      = Sy d - k * Sx d - (d.length : ℚ) * b := by
  induction d with
  | nil => simp [Sy, Sx]
  | cons p d ih =>
    rw [List.map_cons, List.sum_cons, ih, Sy_cons, Sx_cons, List.length_cons]
    push_cast
    ring

theorem sum_resid_x (d : List (ℚ × ℚ)) (k b : ℚ) :
    (d.map (fun p => (p.2 - k * p.1 - b) * p.1)).sum
      = Sxy d - k * Sxx d - b * Sx d := by
  induction d with
  | nil => simp [Sxy, Sxx, Sx]
  | cons p d ih =>
    rw [List.map_cons, List.sum_cons, ih, Sxy_cons, Sxx_cons, Sx_cons]
    ring

theorem sqLoss_cons (p : ℚ × ℚ) (d : List (ℚ × ℚ)) (m c : ℚ) :
    sqLoss (p :: d) m c = (p.2 - m * p.1 - c) ^ 2 + sqLoss d m c := by
  simp [sqLoss]

theorem sqLoss_expand (d : List (ℚ × ℚ)) (m c k b : ℚ) :
    sqLoss d m c = sqLoss d k b
      + 2 * (k - m) * (d.map (fun p => (p.2 - k * p.1 - b) * p.1)).sum
      + 2 * (b - c) * (d.map (fun p => p.2 - k * p.1 - b)).sum
      + (d.map (fun p => ((k - m) * p.1 + (b - c)) ^ 2)).sum := by
  induction d with
  | nil => simp [sqLoss]
  | cons p d ih =>
    rw [sqLoss_cons, sqLoss_cons, List.map_cons, List.sum_cons, List.map_cons,
      List.sum_cons, List.map_cons, List.sum_cons, ih]
    ring

theorem polyfitSlope_isBestFit (d : List (ℚ × ℚ)) (hD : lsqDenom d ≠ 0) :
    IsBestFitSlope d (lsqNumer d / lsqDenom d) := by
  have hne : d ≠ [] := by
    intro h
    rw [h] at hD
    simp [lsqDenom, Sxx, Sx] at hD
  have hlen : (d.length : ℚ) ≠ 0 := by
    have := List.length_pos.mpr hne
    positivity
  intro m c
  set k := lsqNumer d / lsqDenom d with hk
  set b := lsqIntercept d k with hb
  have h1 : (d.map (fun p => p.2 - k * p.1 - b)).sum = 0 := by
    rw [sum_resid, hb]
    unfold lsqIntercept
    field_simp
  have h2 : (d.map (fun p => (p.2 - k * p.1 - b) * p.1)).sum = 0 := by
    rw [sum_resid_x, hb, hk]
    unfold lsqIntercept lsqNumer lsqDenom
    unfold lsqDenom at hD
    field_simp
    ring
  have hsq : 0 ≤ (d.map (fun p => ((k - m) * p.1 + (b - c)) ^ 2)).sum := by
    apply List.sum_nonneg
    intro x hx
    obtain ⟨y, _, rfl⟩ := List.mem_map.mp hx
    positivity
  have expand := sqLoss_expand d m c k b
  rw [h1, h2] at expand
  linarith

theorem pySlice_getD (xs : List ℚ) (a b i : ℕ)
    (hi : i < (pySlice xs a b).length) :
    (pySlice xs a b).getD i 0 = xs.getD (a + i) 0 := by
  unfold pySlice at *
  have hlen : i < (xs.take b).length - a := by
    simpa [List.length_drop] using hi
  have hb : a + i < b := by
    have := List.length_take_le b xs
    simp [List.length_take] at hlen
    omega
  rw [List.getD_eq_getElem?_getD, List.getD_eq_getElem?_getD,
    List.getElem?_drop, List.getElem?_take_of_lt hb]

theorem zTrial_length (a : ZIn) : (zTrial a).length = (F_window a).length := by
  unfold zTrial
  split <;> simp

/-! ## C1: z-score trial extraction -/

/-- C1: for every z-score trial extraction (valid clamped windows), the
motion-correction coefficient is the first-degree least-squares slope of the
indicator baseline samples on the reference baseline samples (`1` when the
clamped baseline window has fewer than 2 samples), the corrected signal
`F = indicator - k * reference` is computed over the entire recording and
the extraction window indexes into it, and the returned values are
`(F_window - baseline_mean) / baseline_std` when `baseline_std > 1e-10` and
exactly `F_window - baseline_mean` otherwise. -/
theorem zscore_trial_matches_spec (a : ZIn) (hv : zWindowsValid a) :
    calculate_df_f_zscore a = .ok (zTrial a, zTimeAxis a)
    ∧ ((baseline410 a).length < 2 → kCoef a = 1)
    ∧ (1 < (baseline410 a).length →
        lsqDenom ((baseline410 a).zip (baseline470 a)) ≠ 0 →
        IsBestFitSlope ((baseline410 a).zip (baseline470 a)) (kCoef a))
    ∧ (F_full a).length = min a.s470.length a.s410.length
    ∧ (∀ j, j < (F_full a).length →
        (F_full a).getD j 0 = a.s470.getD j 0 - kCoef a * a.s410.getD j 0)
    ∧ (∀ i, i < (F_window a).length →
        (F_window a).getD i 0 = (F_full a).getD ((wStartIdx a).toNat + i) 0)
    ∧ ((1 / 10 ^ 10 : ℝ) < baselineStd a →
        zTrial a = (F_window a).map
          (fun v => ((v - baselineMean a : ℚ) : ℝ) / baselineStd a))
    ∧ (baselineStd a ≤ (1 / 10 ^ 10 : ℝ) →
        zTrial a = (F_window a).map (fun v => ((v - baselineMean a : ℚ) : ℝ))) := by
  refine ⟨?_, ?_, ?_, ?_, ?_, ?_, ?_, ?_⟩
  · unfold calculate_df_f_zscore
    rw [if_pos hv]
  · intro h
    unfold kCoef
    rw [if_neg (by omega)]
  · intro h1 hD
    unfold kCoef
    rw [if_pos h1]
    unfold polyfitSlope
    exact polyfitSlope_isBestFit _ hD
  · unfold F_full
    exact List.length_zipWith _ _ _
  · intro j hj
    unfold F_full at *
    rw [List.length_zipWith] at hj
    rw [List.getD_eq_getElem _ _ (by rw [List.length_zipWith]; exact hj),
      List.getElem_zipWith,
      List.getD_eq_getElem _ _ (by omega), List.getD_eq_getElem _ _ (by omega)]
  · intro i hi
    unfold F_window at *
    exact pySlice_getD _ _ _ _ hi
  · intro h
    unfold baselineStd at h
    unfold zTrial
    rw [if_pos (show (1 / 10 ^ 20 : ℚ) < baselineVar a from
      (std_gt_iff_var_gt (baselineVar a) (qVar_nonneg _)).mp h)]
  · intro h
    unfold baselineStd at h
    unfold zTrial
    rw [if_neg (show ¬ (1 / 10 ^ 20 : ℚ) < baselineVar a from fun hc =>
      absurd ((std_gt_iff_var_gt (baselineVar a) (qVar_nonneg _)).mpr hc)
        (not_lt.mpr h))]

theorem zW_baseline410 : baseline410 zW = [0, 1, 2] := by
  have hbs : bStartIdx zW = 0 := by
    unfold bStartIdx eventIdx zW
    rw [pyInt_eq (n := 3) (by norm_num), pyInt_eq (n := -3) (by norm_num)]
    decide
  have hbe : bEndIdx zW = 3 := by
    unfold bEndIdx eventIdx zW
    rw [pyInt_eq (n := 3) (by norm_num), pyInt_eq (n := 0) (by norm_num)]
    rfl
  unfold baseline410
  rw [hbs, hbe]
  rfl

theorem zW_baseline470 : baseline470 zW = [0, 1, 3] := by
  have hbs : bStartIdx zW = 0 := by
    unfold bStartIdx eventIdx zW
    rw [pyInt_eq (n := 3) (by norm_num), pyInt_eq (n := -3) (by norm_num)]
    decide
  have hbe : bEndIdx zW = 3 := by
    unfold bEndIdx eventIdx zW
    rw [pyInt_eq (n := 3) (by norm_num), pyInt_eq (n := 0) (by norm_num)]
    rfl
  unfold baseline470
  rw [hbs, hbe]
  rfl

theorem zW_valid : zWindowsValid zW := by
  have h3 : pyInt ((3 : ℚ) * 1) = 3 := pyInt_eq (by norm_num)
  have hm3 : pyInt ((-3 : ℚ) * 1) = -3 := pyInt_eq (by norm_num)
  have h0 : pyInt ((0 : ℚ) * 1) = 0 := pyInt_eq (by norm_num)
  have h2 : pyInt ((2 : ℚ) * 1) = 2 := pyInt_eq (by norm_num)
  constructor
  · show bStartIdx zW < bEndIdx zW
    unfold bStartIdx bEndIdx eventIdx zW
    rw [h3, hm3, h0]
    decide
  · show wStartIdx zW < wEndIdx zW
    unfold wStartIdx wEndIdx eventIdx zW
    rw [h3, h0, h2]
    decide

theorem zW_var : baselineVar zW = 1 / 18 := by
  have hk : kCoef zW = 3 / 2 := by
    unfold kCoef
    rw [zW_baseline410, zW_baseline470, if_pos (by norm_num)]
    unfold polyfitSlope lsqNumer lsqDenom Sx Sy Sxx Sxy
    norm_num [List.zip]
  have hF : F_full zW = [0, -1/2, 0, -9/2, -9/2] := by
    unfold F_full
    rw [hk]
    show List.zipWith (fun v470 v410 => v470 - 3 / 2 * v410)
      [0, 1, 3, 9, 9] [0, 1, 2, 9, 9] = _
    norm_num [List.zipWith]
  have hbs : bStartIdx zW = 0 := by
    unfold bStartIdx eventIdx zW
    rw [pyInt_eq (n := 3) (by norm_num), pyInt_eq (n := -3) (by norm_num)]
    decide
  have hbe : bEndIdx zW = 3 := by
    unfold bEndIdx eventIdx zW
    rw [pyInt_eq (n := 3) (by norm_num), pyInt_eq (n := 0) (by norm_num)]
    rfl
  have hFb : F_baseline zW = [0, -1/2, 0] := by
    unfold F_baseline
    rw [hbs, hbe, hF]
    rfl
  unfold baselineVar
  rw [hFb]
  unfold qVar qMean
  norm_num

theorem zW_std_gt : (1 / 10 ^ 10 : ℝ) < baselineStd zW := by
  unfold baselineStd
  rw [zW_var]
  exact (std_gt_iff_var_gt _ (by norm_num)).mpr (by norm_num)

/-- Witness for C1 at the concrete input `zW`: every hypothesis holds and
the dividing branch is exercised. -/
theorem zscore_trial_matches_spec_witness :
    zWindowsValid zW
    ∧ 1 < (baseline410 zW).length
    ∧ lsqDenom ((baseline410 zW).zip (baseline470 zW)) ≠ 0
    ∧ (1 / 10 ^ 10 : ℝ) < baselineStd zW
    ∧ IsBestFitSlope ((baseline410 zW).zip (baseline470 zW)) (kCoef zW)
    ∧ zTrial zW = (F_window zW).map
        (fun v => ((v - baselineMean zW : ℚ) : ℝ) / baselineStd zW) := by
  have hlen : 1 < (baseline410 zW).length := by rw [zW_baseline410]; norm_num
  have hD : lsqDenom ((baseline410 zW).zip (baseline470 zW)) ≠ 0 := by
    rw [zW_baseline410, zW_baseline470]
    unfold lsqDenom Sx Sxx
    norm_num [List.zip]
  have h := zscore_trial_matches_spec zW zW_valid
  exact ⟨zW_valid, hlen, hD, zW_std_gt, h.2.2.1 hlen hD,
    h.2.2.2.2.2.2.1 zW_std_gt⟩

/-! ## C6 and C2: the orchestrator's job trace -/

/-- C6: along every trace of `execute_analysis` — the successful run and the
run failing after any number of progress updates — the job starts `queued`,
the status only moves along `queued → running → {succeeded, failed}` (never
backward, never skipping `queued`, never leaving a terminal state), and
progress is non-decreasing on every update before the terminal transition. -/
theorem job_trace_monotone :
    (successTrace.head? = some create_job ∧ List.Chain' stepOK successTrace)
    ∧ ∀ (k : Fin 7) (msg : String),
        (failTrace k msg).head? = some create_job
        ∧ List.Chain' stepOK (failTrace k msg) := by
  refine ⟨⟨rfl, ?_⟩, ?_⟩
  · simp [successTrace, progressUpdates, List.scanl, applyUpdate, update_job,
      create_job, List.chain'_cons, List.chain'_singleton, stepOK,
      JobStatusQ.rank, JobStatusQ.isTerminal, Option.getD]
  intro k msg
  constructor
  · fin_cases k <;> rfl
  · fin_cases k <;>
      simp [failTrace, progressUpdates, List.scanl, applyUpdate, update_job,
        create_job, List.chain'_cons, List.chain'_singleton, stepOK,
        JobStatusQ.rank, JobStatusQ.isTerminal, Option.getD]

/-- C2 counterexample: in the scenario of the claim — progress reaches `50`,
then an exception occurs — the final snapshot has status `failed` but
progress `0`, not the preserved value `50`: the handler at
fluorescence_service.py line 332 passes `progress=0` explicitly. -/
theorem fail_resets_progress_counterexample :
    ((failTrace 4 "boom").getD 5 create_job).progress = 50
    ∧ finalSnapshot (failTrace 4 "boom") =
        ⟨.failed, 0, "Analysis failed", some "boom"⟩
    ∧ ¬ (finalSnapshot (failTrace 4 "boom")).progress = 50 := by
  exact ⟨rfl, rfl, by decide⟩

/-- C2 amended: the fail transition (from any point of the execution) sets
status `failed`, records the error text, and resets progress to `0`
regardless of its last known value. -/
theorem fail_transition_spec (k : Fin 7) (msg : String) :
    (finalSnapshot (failTrace k msg)).status = .failed
    ∧ (finalSnapshot (failTrace k msg)).progress = 0
    ∧ (finalSnapshot (failTrace k msg)).error = some msg := by
  fin_cases k <;> exact ⟨rfl, rfl, rfl⟩

/-! ## C4: run extraction for multi-event warping groups -/

theorem specRuns_consNE {α : Type} (p : α → Bool) (zs : List α) :
    (if (zs.takeWhile p).isEmpty then specRuns p (zs.dropWhile p)
     else zs.takeWhile p :: specRuns p (zs.dropWhile p)) = specRuns p zs := by
  cases zs with
  | nil => simp [specRuns]
  | cons z zs =>
    by_cases hz : p z
    · simp [specRuns, List.takeWhile_cons, List.dropWhile_cons, hz]
    · simp [specRuns, List.takeWhile_cons, List.dropWhile_cons, hz]

theorem scanRuns_go {α : Type} (p : α → Bool) (xs : List α) :
    ∀ cur : List α,
      scanRuns p cur xs =
        (if (cur ++ xs.takeWhile p).isEmpty then specRuns p (xs.dropWhile p)
         else (cur ++ xs.takeWhile p) :: specRuns p (xs.dropWhile p)).filter
          (fun r => 2 ≤ r.length) := by
  induction xs with
  | nil =>
    intro cur
    by_cases hc : cur = []
    · subst hc
      simp [scanRuns, specRuns]
    · simp only [scanRuns, List.takeWhile_nil, List.dropWhile_nil,
        List.append_nil, specRuns]
      rw [if_neg (show ¬cur.isEmpty = true by simpa using hc)]
      rw [List.filter_cons]
      simp only [List.filter_nil, decide_eq_true_eq]
  | cons x xs ih =>
    intro cur
    by_cases hx : p x
    · rw [show scanRuns p cur (x :: xs) = scanRuns p (cur ++ [x]) xs by
        simp [scanRuns, hx]]
      rw [ih (cur ++ [x])]
      simp [List.takeWhile_cons, List.dropWhile_cons, hx, List.append_assoc]
    · rw [show scanRuns p cur (x :: xs) =
          (if 2 ≤ cur.length then [cur] else []) ++ scanRuns p [] xs by
        simp [scanRuns, hx]]
      rw [ih []]
      simp only [List.nil_append]
      rw [specRuns_consNE p xs]
      have htw : List.takeWhile p (x :: xs) = [] := by
        simp [List.takeWhile_cons, hx]
      have hdw : List.dropWhile p (x :: xs) = x :: xs := by
        simp [List.dropWhile_cons, hx]
      have hsp : specRuns p (x :: xs) = specRuns p xs := by
        simp [specRuns, hx]
      rw [htw, List.append_nil, hdw, hsp]
      by_cases hc : cur = []
      · subst hc
        simp
      · rw [if_neg (show ¬cur.isEmpty = true by simpa using hc),
          List.filter_cons]
        simp only [decide_eq_true_eq]
        by_cases h2 : 2 ≤ cur.length
        · rw [if_pos h2, if_pos h2]
          rfl
        · rw [if_neg h2, if_neg h2]
          rfl

theorem scanRuns_eq_specRuns {α : Type} (p : α → Bool) (xs : List α) :
    scanRuns p [] xs = (specRuns p xs).filter (fun r => 2 ≤ r.length) := by
  rw [scanRuns_go p xs []]
  simp only [List.nil_append]
  rw [specRuns_consNE]

/-- C4: the engine's per-dataset event-sequence scan over the time-sorted
events equals the maximal runs of consecutive events whose label is in the
group's event set, with runs shorter than two events discarded; on the
annotation sequence `A, B, A, B, C` with the group set `{A, B}` it yields
exactly one run of length four (an out-of-set event terminates the run). -/
theorem warping_run_extraction (labels : List String)
    (evs : List LabelEventQ) :
    eventSequences labels evs =
      (specRuns (fun e => labels.contains e.label) (sortedByStart evs)).filter
        (fun r => 2 ≤ r.length)
    ∧ eventSequences ["A", "B"] abEvents =
        [[⟨"A", 1, 1, true⟩, ⟨"B", 2, 2, true⟩, ⟨"A", 3, 3, true⟩,
          ⟨"B", 4, 4, true⟩]] := by
  constructor
  · unfold eventSequences
    exact scanRuns_eq_specRuns _ _
  · have hs : sortedByStart abEvents = abEvents := by
      unfold sortedByStart
      apply List.mergeSort_of_sorted
      simp [abEvents, List.pairwise_cons]
      norm_num
    unfold eventSequences
    rw [hs]
    decide

/-! ## C5: channel-column detection -/

theorem buildChannels_error_of_incomplete
    (entries : List (String × Option String × Option String))
    (h : ∃ e ∈ entries, e.2.1 = none ∨ e.2.2 = none) :
    ∃ n, buildChannels entries = .error (.missingChannelPair n) := by
  induction entries with
  | nil => simp at h
  | cons e rest ih =>
    obtain ⟨n, o1, o2⟩ := e
    by_cases he : o1.isNone = true ∨ o2.isNone = true
    · exact ⟨n, by simp only [buildChannels]; rw [if_pos he]⟩
    · have hr : ∃ e ∈ rest, e.2.1 = none ∨ e.2.2 = none := by
        obtain ⟨f, hf, hnone⟩ := h
        rcases List.mem_cons.mp hf with rfl | hf2
        · exact absurd (by
            rcases hnone with h1 | h1 <;> simp_all) he
        · exact ⟨f, hf2, hnone⟩
      obtain ⟨n2, herr⟩ := ih hr
      refine ⟨n2, ?_⟩
      simp only [buildChannels]
      rw [if_neg he, herr]

theorem channelCols_acc_of_no_parse (cols : List String)
    (h : ∀ c ∈ cols, parseChannelCol c = none) :
    ∀ acc, cols.foldl addCol acc = acc := by
  induction cols with
  | nil => intro acc; rfl
  | cons c cs ih =>
    intro acc
    rw [List.foldl_cons, show addCol acc c = acc by
      unfold addCol; rw [h c (List.mem_cons_self c cs)]]
    exact ih (fun d hd => h d (List.mem_cons_of_mem c hd)) acc

/-- C5: if any detected channel number in the column map lacks one of its two
wavelength columns the parser fails with a `MissingChannelPair` error; if no
column matches the channel pattern at all it fails with `NoChannelsFound`;
and columns `CH1-410, CH1-470` yield exactly the single channel `CH1`. -/
theorem channel_detection_spec (cols : List String) :
    ((∃ e ∈ channelCols cols, e.2.1 = none ∨ e.2.2 = none) →
      ∃ n, detectChannels cols = .error (.missingChannelPair n))
    ∧ ((∀ c ∈ cols, parseChannelCol c = none) →
      detectChannels cols = .error .noChannelsFound)
    ∧ detectChannels ["CH1-410", "CH1-470"] = .ok ["CH1"] := by
  refine ⟨?_, ?_, rfl⟩
  · intro h
    obtain ⟨n, herr⟩ := buildChannels_error_of_incomplete _ h
    exact ⟨n, by unfold detectChannels; rw [herr]⟩
  · intro h
    have hc : channelCols cols = [] := channelCols_acc_of_no_parse cols h []
    unfold detectChannels
    rw [hc]
    rfl

/-- Witness for C5: a lone `CH2-470` column is an incomplete pair and fails
with `MissingChannelPair`; an unrelated column name fails with
`NoChannelsFound`. -/
theorem channel_detection_spec_witness :
    (("2", (none : Option String), some "CH2-470") ∈ channelCols ["CH2-470"])
    ∧ (∃ n, detectChannels ["CH2-470"] = .error (.missingChannelPair n))
    ∧ (∀ c ∈ ["foo"], parseChannelCol c = none)
    ∧ detectChannels ["foo"] = .error .noChannelsFound := by
  have hcc : channelCols ["CH2-470"] = [("2", none, some "CH2-470")] := rfl
  have hmem : ("2", (none : Option String), some "CH2-470")
      ∈ channelCols ["CH2-470"] := by
    rw [hcc]
    exact List.mem_cons_self _ _
  have hfoo : ∀ c ∈ ["foo"], parseChannelCol c = none := by
    intro c hc
    rcases List.mem_cons.mp hc with rfl | h2
    · rfl
    · simp at h2
  exact ⟨hmem,
    (channel_detection_spec ["CH2-470"]).1 ⟨_, hmem, Or.inl rfl⟩,
    hfoo,
    (channel_detection_spec ["foo"]).2.1 hfoo⟩

/-! ## C8: dataset selection by tags -/

/-- C8 counterexample: the claim says tag-based resolution returns an empty
result whenever validation fails on any tag id, but with the AND list
`[5, "x"]` — where `"x"` is not a valid integer id — the selector silently
drops `"x"` and returns the item tagged `5`, a non-empty result. -/
theorem tag_selection_counterexample :
    select_by_tags [c8item] 1 ⟨[.intId 5, .strId "x"], []⟩ none = [c8item]
    ∧ TagIdQ.toInt? (.strId "x") = none
    ∧ (TagIdQ.strId "x") ∈ ([.intId 5, .strId "x"] : List TagIdQ)
    ∧ select_by_tags [c8item] 1 ⟨[.intId 5, .strId "x"], []⟩ none ≠ [] := by
  exact ⟨rfl, rfl, by decide, by decide⟩

/-- C8 amended: an empty selection (no ids, no tag filter) is rejected
before job creation; a tag predicate with both lists empty selects nothing;
a non-empty AND (or OR) list whose entries contain no valid integer id
selects nothing; invalid ids alongside valid ones are dropped rather than
emptying the result; and the result never exceeds the project's own items
(no fall back to select-all). -/
theorem tag_selection_spec (items : List TagItemQ) (pid : ℤ)
    (tf : TagFilterQ) (ty : Option String) (sel : DataSelectionQ) :
    (sel.dataItemIds = [] → sel.tagFilter = none →
      submit_selection_check sel
        = .error "Must provide dataItemIds or tagFilter")
    ∧ (tf.andTags = [] → tf.orTags = [] → select_by_tags items pid tf ty = [])
    ∧ (tf.andTags ≠ [] → tf.andTags.filterMap TagIdQ.toInt? = [] →
        select_by_tags items pid tf ty = [])
    ∧ (tf.orTags ≠ [] → tf.orTags.filterMap TagIdQ.toInt? = [] →
        select_by_tags items pid tf ty = [])
    ∧ (∀ it ∈ select_by_tags items pid tf ty,
        it ∈ items ∧ it.projectId = pid) := by
  refine ⟨?_, ?_, ?_, ?_, ?_⟩
  · intro h1 h2
    unfold submit_selection_check
    rw [if_pos (by simp [h1, h2])]
  · intro h1 h2
    unfold select_by_tags
    rw [if_pos (by simp [h1, h2])]
  · intro h1 h2
    unfold select_by_tags
    rw [if_neg (by simp [h1]), if_pos (by simp [h1, h2])]
  · intro h1 h2
    unfold select_by_tags
    rw [if_neg (by simp [h1])]
    by_cases ha : tf.andTags.isEmpty = true
    · rw [if_neg (by simp [ha])]
      rw [if_pos (by simp [h1, h2])]
    · by_cases hv : (tf.andTags.filterMap TagIdQ.toInt?).isEmpty = true
      · rw [if_pos (by simp [ha, hv])]
      · rw [if_neg (by simp [hv]), if_pos (by simp [h1, h2])]
  · intro it hit
    simp only [select_by_tags] at hit
    by_cases h0 : (tf.andTags.isEmpty && tf.orTags.isEmpty) = true
    · rw [if_pos h0] at hit
      cases hit
    · rw [if_neg h0] at hit
      by_cases h2 : (!tf.andTags.isEmpty
          && (tf.andTags.filterMap TagIdQ.toInt?).isEmpty) = true
      · rw [if_pos h2] at hit
        cases hit
      · rw [if_neg h2] at hit
        by_cases h3 : (!tf.orTags.isEmpty
            && (tf.orTags.filterMap TagIdQ.toInt?).isEmpty) = true
        · rw [if_pos h3] at hit
          cases hit
        · rw [if_neg h3] at hit
          have hstep : it ∈ (match ty with
              | some t => List.filter (fun (x : TagItemQ) => decide (x.itemType = t))
                  (List.filter (fun (x : TagItemQ) => decide (x.projectId = pid)) items)
              | none => List.filter
                  (fun (x : TagItemQ) => decide (x.projectId = pid)) items) := by
            by_cases h4 : (!tf.orTags.isEmpty) = true
            · rw [if_pos h4] at hit
              replace hit := List.mem_of_mem_filter hit
              by_cases h5 : (!tf.andTags.isEmpty) = true
              · rw [if_pos h5] at hit
                exact List.mem_of_mem_filter hit
              · rwa [if_neg h5] at hit
            · rw [if_neg h4] at hit
              by_cases h5 : (!tf.andTags.isEmpty) = true
              · rw [if_pos h5] at hit
                exact List.mem_of_mem_filter hit
              · rwa [if_neg h5] at hit
          have hq0 : it ∈ List.filter (fun x => decide (x.projectId = pid)) items := by
            cases ty with
            | none => exact hstep
            | some t => exact List.mem_of_mem_filter hstep
          have hm := List.mem_filter.mp hq0
          exact ⟨hm.1, by simpa using hm.2⟩

/-- Witness for C8: the empty selection is rejected; an empty predicate, an
all-invalid AND list, and an all-invalid OR list each select nothing. -/
theorem tag_selection_spec_witness :
    submit_selection_check ⟨[], none⟩
      = .error "Must provide dataItemIds or tagFilter"
    ∧ select_by_tags [c8item] 1 ⟨[], []⟩ none = []
    ∧ select_by_tags [c8item] 1 ⟨[.strId "x"], []⟩ none = []
    ∧ select_by_tags [c8item] 1 ⟨[], [.strId "x"]⟩ none = [] := by
  exact ⟨(tag_selection_spec [c8item] 1 ⟨[], []⟩ none ⟨[], none⟩).1 rfl rfl,
    (tag_selection_spec [c8item] 1 ⟨[], []⟩ none ⟨[], none⟩).2.1 rfl rfl,
    (tag_selection_spec [c8item] 1 ⟨[.strId "x"], []⟩ none
      ⟨[], none⟩).2.2.1 (by decide) rfl,
    (tag_selection_spec [c8item] 1 ⟨[], [.strId "x"]⟩ none
      ⟨[], none⟩).2.2.2.1 (by decide) rfl⟩

/-! ## C7: mean/SEM curve aggregation -/

theorem rowVar_single (x : ℝ) : rowVar [x] = 0 := by
  unfold rowVar rowMean
  norm_num

theorem colStd_single (r : List ℝ) : colStd [r] = List.replicate r.length 0 := by
  unfold colStd
  have hw : matWidth [r] = r.length := rfl
  rw [hw]
  have hconst : ∀ j ∈ List.range r.length,
      Real.sqrt (rowVar (matCol [r] j)) = 0 := by
    intro j _
    rw [show matCol [r] j = [r.getD j 0] from rfl, rowVar_single, Real.sqrt_zero]
  rw [List.map_congr_left hconst]
  simp

theorem semCurve_eq (m : List (List ℝ)) (h : 1 ≤ m.length) :
    semCurve m = (colStd m).map (fun s => s / Real.sqrt (m.length : ℝ)) := by
  unfold semCurve
  by_cases h1 : 1 < m.length
  · rw [if_pos h1]
  · rw [if_neg h1]
    have hlen : m.length = 1 := by omega
    obtain ⟨r, rfl⟩ : ∃ r, m = [r] := by
      cases m with
      | nil => simp at hlen
      | cons r rest =>
        cases rest with
        | nil => exact ⟨r, rfl⟩
        | cons b l => simp at hlen
    rw [colStd_single, List.map_replicate]
    simp [matWidth]

/-- C7: the curve emitted for every produced trial matrix (the shared
emission of `analyze_single_event` lines 689-698 and `time_warp_alignment`
lines 608-617) has mean equal to the columnwise mean of the matrix and SEM
equal to the columnwise standard deviation divided by `sqrt(n_trials)`; the
SEM vector is all-zero when there is exactly one trial, and no curve entry
is produced at all for an empty matrix. -/
theorem curve_aggregation_spec (key : String) (m : List (List ℝ))
    (tax : List ℚ) :
    (1 ≤ m.length →
      curveFor key m tax =
        [⟨key, colMean m,
          (colStd m).map (fun s => s / Real.sqrt (m.length : ℝ)), tax⟩])
    ∧ (m.length = 1 → semCurve m = List.replicate (matWidth m) 0)
    ∧ (m.length = 0 → curveFor key m tax = []) := by
  refine ⟨?_, ?_, ?_⟩
  · intro h
    unfold curveFor
    rw [if_pos (by omega), semCurve_eq m h]
  · intro h
    unfold semCurve
    rw [if_neg (by omega)]
  · intro h
    unfold curveFor
    rw [if_neg (by omega)]

/-- Witness for C7: a two-trial matrix produces the mean/SEM curve, a
one-trial matrix has an all-zero SEM, and an empty matrix produces no
curve. -/
theorem curve_aggregation_spec_witness :
    curveFor "k" c7matrix []
      = [⟨"k", colMean c7matrix,
          (colStd c7matrix).map
            (fun s => s / Real.sqrt (c7matrix.length : ℝ)), []⟩]
    ∧ semCurve [[(5 : ℝ)]] = List.replicate 1 0
    ∧ curveFor "k2" ([] : List (List ℝ)) [] = [] := by
  refine ⟨(curve_aggregation_spec "k" c7matrix []).1 (by norm_num [c7matrix]),
    ?_, (curve_aggregation_spec "k2" [] []).2.2 rfl⟩
  have h := (curve_aggregation_spec "x" [[(5 : ℝ)]] []).2.1 rfl
  simpa [matWidth] using h

/-! ## C10: the warping result does not depend on the response window -/

/-- C10: for every channel, event-group sequence, sampling rate and target
segment length, the multi-event warping computation returns identical
results for any two values of the response-window parameter — the parameter
is accepted (and threaded through `time_warp_alignment`) but never read. -/
theorem warping_ignores_response_window (ch : ChannelQ)
    (eventGroups : List (List LabelEventQ)) (fps : ℚ) (rw1 rw2 : ℚ × ℚ)
    (tl : ℕ) (datasets : List DatasetQ) (groups : List GroupQ)
    (p : MultiParamsQ) (rwo : Option (ℚ × ℚ)) :
    calculate_df_f_warping ch eventGroups fps rw1 tl
      = calculate_df_f_warping ch eventGroups fps rw2 tl
    ∧ time_warp_alignment datasets groups p
      = time_warp_alignment datasets groups
          { fps := p.fps, response_window := rwo } := by
  exact ⟨rfl, rfl⟩

/-! ## Evaluation of the concrete z-score scenarios -/

theorem pySlice_length (xs : List ℚ) (a b : ℕ) :
    (pySlice xs a b).length = min b xs.length - a := by
  simp [pySlice, List.length_drop, List.length_take]

theorem zInFor_indices (ch : ChannelQ) (fps : ℚ) (bw rw : ℚ × ℚ) (et : ℚ)
    (nE nB nBe nW nWe : ℤ)
    (hE : et * fps = (nE : ℚ))
    (hB : bw.1 * fps = (nB : ℚ))
    (hBe : bw.2 * fps = (nBe : ℚ))
    (hW : min bw.1 rw.1 * fps = (nW : ℚ))
    (hWe : max bw.2 rw.2 * fps = (nWe : ℚ)) :
    bStartIdx (zInFor ch fps bw rw et) = max 0 (nE + nB)
    ∧ bEndIdx (zInFor ch fps bw rw et)
        = min (ch.baseline_410.length : ℤ) (nE + nBe)
    ∧ wStartIdx (zInFor ch fps bw rw et) = max 0 (nE + nW)
    ∧ wEndIdx (zInFor ch fps bw rw et)
        = min (ch.baseline_410.length : ℤ) (nE + nWe) := by
  simp only [bStartIdx, bEndIdx, wStartIdx, wEndIdx, eventIdx, zInFor]
  rw [pyInt_eq hE, pyInt_eq hB, pyInt_eq hBe, pyInt_eq hW, pyInt_eq hWe]
  exact ⟨rfl, rfl, rfl, rfl⟩

theorem c9_indices (et : ℚ) (nE : ℤ) (hE : et = (nE : ℚ)) :
    bStartIdx (zInFor zeroChannel 1 (-2, 0) (0, 2) et) = max 0 (nE + -2)
    ∧ bEndIdx (zInFor zeroChannel 1 (-2, 0) (0, 2) et) = min 10 (nE + 0)
    ∧ wStartIdx (zInFor zeroChannel 1 (-2, 0) (0, 2) et) = max 0 (nE + -2)
    ∧ wEndIdx (zInFor zeroChannel 1 (-2, 0) (0, 2) et) = min 10 (nE + 2) := by
  have h := zInFor_indices zeroChannel 1 (-2, 0) (0, 2) et nE (-2) 0 (-2) 2
    (by rw [hE]; norm_num) (by norm_num) (by norm_num)
    (by rw [show min (-2 : ℚ) 0 = -2 from min_eq_left (by norm_num)]; norm_num)
    (by rw [show max (0 : ℚ) 2 = 2 from max_eq_right (by norm_num)]; norm_num)
  have hlen : (zeroChannel.baseline_410.length : ℤ) = 10 := by
    simp [zeroChannel]
  rw [hlen] at h
  exact h

theorem c9a1_valid : zWindowsValid c9a1 := by
  obtain ⟨h1, h2, h3, h4⟩ := c9_indices 1 1 rfl
  unfold c9a1 zWindowsValid
  rw [h1, h2, h3, h4]
  decide

theorem c9a2_valid : zWindowsValid c9a2 := by
  obtain ⟨h1, h2, h3, h4⟩ := c9_indices 5 5 rfl
  unfold c9a2 zWindowsValid
  rw [h1, h2, h3, h4]
  decide

theorem c3a2_invalid : ¬ zWindowsValid c3a2 := by
  obtain ⟨h1, h2, h3, h4⟩ := c9_indices 100 100 rfl
  unfold c3a2 zWindowsValid
  rw [h1, h2, h3, h4]
  decide

theorem c9_F_full_length (et : ℚ) :
    (F_full (zInFor zeroChannel 1 (-2, 0) (0, 2) et)).length = 10 := by
  unfold F_full zInFor zeroChannel
  simp

theorem c9a1_trial_length : (zTrial c9a1).length = 3 := by
  obtain ⟨h1, h2, h3, h4⟩ := c9_indices 1 1 rfl
  rw [zTrial_length]
  unfold F_window
  rw [pySlice_length]
  unfold c9a1 at *
  rw [h3, h4, c9_F_full_length]
  decide

theorem c9a2_trial_length : (zTrial c9a2).length = 4 := by
  obtain ⟨h1, h2, h3, h4⟩ := c9_indices 5 5 rfl
  rw [zTrial_length]
  unfold F_window
  rw [pySlice_length]
  unfold c9a2 at *
  rw [h3, h4, c9_F_full_length]
  decide

theorem vstack_singleton (r : List ℝ) : vstack [r] = .ok [r] := by
  unfold vstack
  rw [if_pos (by simp)]

/-! ## C9: trial length uniformity -/

theorem c9_zscore_ok1 :
    calculate_df_f_zscore (zInFor zeroChannel 1 (-2, 0) (0, 2) 1)
      = .ok (zTrial c9a1, zTimeAxis c9a1) := by
  unfold calculate_df_f_zscore
  rw [if_pos (show zWindowsValid (zInFor zeroChannel 1 (-2, 0) (0, 2) 1)
    from c9a1_valid)]
  rfl

theorem c9_zscore_ok2 :
    calculate_df_f_zscore (zInFor zeroChannel 1 (-2, 0) (0, 2) 5)
      = .ok (zTrial c9a2, zTimeAxis c9a2) := by
  unfold calculate_df_f_zscore
  rw [if_pos (show zWindowsValid (zInFor zeroChannel 1 (-2, 0) (0, 2) 5)
    from c9a2_valid)]
  rfl

theorem c9_collect :
    collectTrials zeroChannel 1 (-2, 0) (0, 2)
        ((filteredEvents ["E"] c9events).enum)
      = [(zTrial c9a1, zTimeAxis c9a1, "trial_0_E"),
         (zTrial c9a2, zTimeAxis c9a2, "trial_1_E")] := by
  rw [show (filteredEvents ["E"] c9events).enum
      = [(0, (⟨"E", 1, 1, true⟩ : LabelEventQ)),
         (1, (⟨"E", 5, 5, true⟩ : LabelEventQ))] from rfl]
  simp only [collectTrials, c9_zscore_ok1, c9_zscore_ok2]
  rfl

theorem c9_calc_error :
    calculate_df_f zeroChannel c9events (-2, 0) (0, 2) 1 ["E"]
      = .error "all the input array dimensions must match" := by
  have hv : vstack [zTrial c9a1, zTrial c9a2]
      = .error "all the input array dimensions must match" := by
    unfold vstack
    rw [if_neg]
    intro hall
    simp [List.all_cons, c9a1_trial_length, c9a2_trial_length] at hall
  simp only [calculate_df_f]
  rw [if_neg (show ¬ (filteredEvents ["E"] c9events).isEmpty = true by decide)]
  rw [c9_collect]
  rw [if_neg (by simp)]
  simp only [List.map_cons, List.map_nil]
  rw [hv]

/-- C9 counterexample: with the same channel, event label and windows, the
event at `t = 1 s` (clamped at the recording start) yields a trial of length
3 while the interior event at `t = 5 s` yields length 4, and stacking the
two trials fails — trials of the same channel/event label are not
equal-length by construction when windows are clamped. -/
theorem clamped_trial_lengths_counterexample :
    (zTrial c9a1).length = 3
    ∧ (zTrial c9a2).length = 4
    ∧ calculate_df_f zeroChannel c9events (-2, 0) (0, 2) 1 ["E"]
        = .error "all the input array dimensions must match" :=
  ⟨c9a1_trial_length, c9a2_trial_length, c9_calc_error⟩

theorem vstack_ok {rows m : List (List ℝ)} (h : vstack rows = .ok m) :
    m = rows := by
  unfold vstack at h
  split at h
  · exact (Except.ok.injEq _ _).mp h.symm
  · cases h

/-- C9 amended: trials of the same channel and event label have equal length
whenever their extraction windows are not clamped by the recording
boundaries; a window clamped at a boundary can yield a shorter trial, and
the stack then fails (see the counterexample).  Whenever the stack does
succeed, the matrix row count equals the length of its `trial_ids` list. -/
theorem trial_length_uniformity (a1 a2 : ZIn) (ch : ChannelQ)
    (events : List LabelEventQ) (bw rw : ℚ × ℚ) (fps : ℚ)
    (flt : List String)
    (h1 : a1.s470.length = a1.s410.length)
    (h2 : a2.s470.length = a2.s410.length)
    (hws : a1.windowStart = a2.windowStart)
    (hwe : a1.windowEnd = a2.windowEnd)
    (hfps : a1.fps = a2.fps)
    (ha1s : 0 ≤ eventIdx a1 + pyInt (a1.windowStart * a1.fps))
    (ha1e : eventIdx a1 + pyInt (a1.windowEnd * a1.fps) ≤ (a1.s410.length : ℤ))
    (ha2s : 0 ≤ eventIdx a2 + pyInt (a2.windowStart * a2.fps))
    (ha2e : eventIdx a2 + pyInt (a2.windowEnd * a2.fps) ≤ (a2.s410.length : ℤ)) :
    (zTrial a1).length = (zTrial a2).length
    ∧ (∀ r, calculate_df_f ch events bw rw fps flt = .ok r →
        r.df_f.length = r.trial_ids.length) := by
  constructor
  · rw [zTrial_length, zTrial_length]
    unfold F_window
    rw [pySlice_length, pySlice_length]
    have hf1 : (F_full a1).length = a1.s410.length := by
      unfold F_full
      rw [List.length_zipWith, h1, min_self]
    have hf2 : (F_full a2).length = a2.s410.length := by
      unfold F_full
      rw [List.length_zipWith, h2, min_self]
    rw [hf1, hf2]
    unfold wStartIdx wEndIdx
    rw [hws, hwe, hfps]
    rw [hws, hfps] at ha1s
    rw [hwe, hfps] at ha1e
    rw [max_eq_right ha1s, max_eq_right ha2s]
    omega
  · intro r h
    simp only [calculate_df_f] at h
    split at h
    · cases h
      simp
    · split at h
      · cases h
      · split at h
        · cases h
        · rename_i m heq
          cases h
          rw [vstack_ok heq]
          simp

/-! ## C3: per-key zero-trial handling -/

theorem c3_E1_ok :
    calculate_df_f zeroChannel c3events (-2, 0) (0, 2) 1 ["E1"]
      = .ok ⟨[zTrial c9a2], zTimeAxis c9a2, ["trial_0_E1"]⟩ := by
  have hcol : collectTrials zeroChannel 1 (-2, 0) (0, 2)
      ((filteredEvents ["E1"] c3events).enum)
      = [(zTrial c9a2, zTimeAxis c9a2, "trial_0_E1")] := by
    rw [show (filteredEvents ["E1"] c3events).enum
        = [(0, (⟨"E1", 5, 5, true⟩ : LabelEventQ))] from rfl]
    simp only [collectTrials, c9_zscore_ok2]
    rfl
  simp only [calculate_df_f]
  rw [if_neg (show ¬ (filteredEvents ["E1"] c3events).isEmpty = true by decide)]
  rw [hcol]
  rw [if_neg (by simp)]
  simp only [List.map_cons, List.map_nil]
  rw [vstack_singleton]
  rfl

theorem c3_E2_error :
    calculate_df_f zeroChannel c3events (-2, 0) (0, 2) 1 ["E2"]
      = .error "No valid trials could be processed" := by
  have hz : calculate_df_f_zscore (zInFor zeroChannel 1 (-2, 0) (0, 2) 100)
      = .error "Invalid time window indices" := by
    unfold calculate_df_f_zscore
    rw [if_neg (show ¬ zWindowsValid (zInFor zeroChannel 1 (-2, 0) (0, 2) 100)
      from c3a2_invalid)]
  have hcol : collectTrials zeroChannel 1 (-2, 0) (0, 2)
      ((filteredEvents ["E2"] c3events).enum) = [] := by
    rw [show (filteredEvents ["E2"] c3events).enum
        = [(0, (⟨"E2", 100, 100, true⟩ : LabelEventQ))] from rfl]
    simp only [collectTrials, hz]
  simp only [calculate_df_f]
  rw [if_neg (show ¬ (filteredEvents ["E2"] c3events).isEmpty = true by decide)]
  rw [hcol]
  rfl

/-- C3 counterexample: in a run whose `E1` key produces one valid trial, the
`E2` key — which has a matching event but zero valid trials — raises
`No valid trials could be processed`, and `analyze_single_event` propagates
the error: the whole job aborts even though trials exist under another key,
contradicting both "recovered locally by omitting that key" and "escalated
only when zero trials are produced across all keys". -/
theorem per_key_no_trials_aborts_counterexample :
    dfLenOf (calculate_df_f zeroChannel c3events (-2, 0) (0, 2) 1 ["E1"]) = 1
    ∧ analyze_single_event [c3dataset] c3params
        = .error "No valid trials could be processed" := by
  constructor
  · rw [c3_E1_ok]
    rfl
  · simp only [analyze_single_event, processChannels, processLabels,
      c3dataset, c3params, c3_E1_ok, c3_E2_error]

theorem collectTrials_nil (ch : ChannelQ) (fps : ℚ) (bw rw : ℚ × ℚ)
    (prs : List (ℕ × LabelEventQ))
    (h : ∀ pr ∈ prs, ¬ zWindowsValid (zInFor ch fps bw rw pr.2.start_time)) :
    collectTrials ch fps bw rw prs = [] := by
  induction prs with
  | nil => rfl
  | cons pr rest ih =>
    obtain ⟨i, e⟩ := pr
    simp only [collectTrials]
    rw [show calculate_df_f_zscore (zInFor ch fps bw rw e.start_time)
        = .error "Invalid time window indices" by
      unfold calculate_df_f_zscore
      rw [if_neg (h (i, e) (List.mem_cons_self _ _))]]
    exact ih (fun q hq => h q (List.mem_cons_of_mem _ hq))

theorem calculate_df_f_no_match (ch : ChannelQ) (events : List LabelEventQ)
    (bw rw : ℚ × ℚ) (fps : ℚ) (flt : List String)
    (h : filteredEvents flt events = []) :
    calculate_df_f ch events bw rw fps flt = .ok ⟨[], [], []⟩ := by
  simp only [calculate_df_f]
  rw [if_pos (by rw [h]; rfl)]

theorem processLabels_all_empty (ch : ChannelQ) (events : List LabelEventQ)
    (p : SingleParamsQ) :
    ∀ ls : List String, (∀ l2 ∈ ls, filteredEvents [l2] events = []) →
      processLabels ch events p ls = .ok ([], []) := by
  intro ls
  induction ls with
  | nil => intro _; rfl
  | cons l2 rest ih =>
    intro h
    simp only [processLabels]
    rw [calculate_df_f_no_match ch events p.baseline_window p.response_window
      p.fps [l2] (h l2 (List.mem_cons_self _ _))]
    rw [ih (fun l3 hl => h l3 (List.mem_cons_of_mem _ hl))]
    rfl

/-- C3 amended: a key whose event filter matches no events is recovered
locally — `calculate_df_f` returns the empty result, and a run whose keys
all match no events succeeds with an empty result.  But a key with matching
events that all fail to yield a trial raises
`No valid trials could be processed`, and the per-label loop propagates any
such error, aborting the whole analysis regardless of other keys. -/
theorem no_valid_trials_policy (ch : ChannelQ) (events : List LabelEventQ)
    (bw rw : ℚ × ℚ) (fps : ℚ) (flt : List String) (p : SingleParamsQ)
    (l : String) (ls : List String) (msg : String) :
    (filteredEvents flt events = [] →
      calculate_df_f ch events bw rw fps flt = .ok ⟨[], [], []⟩)
    ∧ (filteredEvents flt events ≠ [] →
        (∀ pr ∈ (filteredEvents flt events).enum,
          ¬ zWindowsValid (zInFor ch fps bw rw pr.2.start_time)) →
        calculate_df_f ch events bw rw fps flt
          = .error "No valid trials could be processed")
    ∧ (calculate_df_f ch events p.baseline_window p.response_window p.fps [l]
          = .error msg →
        processLabels ch events p (l :: ls) = .error msg)
    ∧ ((∀ l2 ∈ ls, filteredEvents [l2] events = []) →
        processLabels ch events p ls = .ok ([], [])) := by
  refine ⟨calculate_df_f_no_match ch events bw rw fps flt, ?_, ?_,
    processLabels_all_empty ch events p ls⟩
  · intro hne hall
    simp only [calculate_df_f]
    rw [if_neg (by simp [hne])]
    rw [collectTrials_nil ch fps bw rw _ hall]
    rfl
  · intro herr
    simp only [processLabels]
    rw [herr]

/-- Witness for C3: a label matching no events yields the empty result and
is skipped without failing, while label `E2` (one matching event, zero valid
trials) raises and the per-label loop turns into the same error. -/
theorem no_valid_trials_policy_witness :
    calculate_df_f zeroChannel c3events (-2, 0) (0, 2) 1 ["Z"] = .ok ⟨[], [], []⟩
    ∧ calculate_df_f zeroChannel c3events (-2, 0) (0, 2) 1 ["E2"]
        = .error "No valid trials could be processed"
    ∧ processLabels zeroChannel c3events c3params ["E2"]
        = .error "No valid trials could be processed"
    ∧ processLabels zeroChannel c3events c3params ["Z"] = .ok ([], []) := by
  have hz : filteredEvents ["Z"] c3events = [] := rfl
  refine ⟨(no_valid_trials_policy zeroChannel c3events (-2, 0) (0, 2) 1 ["Z"]
      c3params "E2" [] "m").1 hz, ?_, ?_, ?_⟩
  · refine (no_valid_trials_policy zeroChannel c3events (-2, 0) (0, 2) 1
      ["E2"] c3params "E2" [] "m").2.1 (by decide) ?_
    intro pr hpr
    rw [show (filteredEvents ["E2"] c3events).enum
        = [(0, (⟨"E2", 100, 100, true⟩ : LabelEventQ))] from rfl] at hpr
    rcases List.mem_singleton.mp hpr with rfl
    exact c3a2_invalid
  · exact (no_valid_trials_policy zeroChannel c3events (-2, 0) (0, 2) 1
      ["E2"] c3params "E2" [] "No valid trials could be processed").2.2.1
      c3_E2_error
  · refine (no_valid_trials_policy zeroChannel c3events (-2, 0) (0, 2) 1
      ["Z"] c3params "E2" ["Z"] "m").2.2.2 ?_
    intro l2 hl
    rcases List.mem_singleton.mp hl with rfl
    exact hz

/-- Witness for C9: two interior (unclamped) events yield equal-length
trials, and a successfully stacked result has as many rows as trial ids. -/
theorem trial_length_uniformity_witness :
    (zTrial c9a2).length = (zTrial c9a3).length
    ∧ dfLenOf (calculate_df_f zeroChannel c3events (-2, 0) (0, 2) 1 ["E1"])
        = idsLenOf (calculate_df_f zeroChannel c3events (-2, 0) (0, 2) 1
            ["E1"]) := by
  have hW : min (-2 : ℚ) 0 * 1 = ((-2 : ℤ) : ℚ) := by
    rw [min_eq_left (by norm_num)]
    norm_num
  have hWe : max (0 : ℚ) 2 * 1 = ((2 : ℤ) : ℚ) := by
    rw [max_eq_right (by norm_num)]
    norm_num
  have ha1s : 0 ≤ eventIdx c9a2 + pyInt (c9a2.windowStart * c9a2.fps) := by
    show 0 ≤ pyInt ((5 : ℚ) * 1) + pyInt (min (-2 : ℚ) 0 * 1)
    rw [pyInt_eq (show (5 : ℚ) * 1 = ((5 : ℤ) : ℚ) by norm_num), pyInt_eq hW]
    decide
  have ha1e : eventIdx c9a2 + pyInt (c9a2.windowEnd * c9a2.fps)
      ≤ (c9a2.s410.length : ℤ) := by
    show pyInt ((5 : ℚ) * 1) + pyInt (max (0 : ℚ) 2 * 1)
      ≤ ((List.replicate 10 (0 : ℚ)).length : ℤ)
    rw [pyInt_eq (show (5 : ℚ) * 1 = ((5 : ℤ) : ℚ) by norm_num), pyInt_eq hWe]
    simp
  have ha2s : 0 ≤ eventIdx c9a3 + pyInt (c9a3.windowStart * c9a3.fps) := by
    show 0 ≤ pyInt ((6 : ℚ) * 1) + pyInt (min (-2 : ℚ) 0 * 1)
    rw [pyInt_eq (show (6 : ℚ) * 1 = ((6 : ℤ) : ℚ) by norm_num), pyInt_eq hW]
    decide
  have ha2e : eventIdx c9a3 + pyInt (c9a3.windowEnd * c9a3.fps)
      ≤ (c9a3.s410.length : ℤ) := by
    show pyInt ((6 : ℚ) * 1) + pyInt (max (0 : ℚ) 2 * 1)
      ≤ ((List.replicate 10 (0 : ℚ)).length : ℤ)
    rw [pyInt_eq (show (6 : ℚ) * 1 = ((6 : ℤ) : ℚ) by norm_num), pyInt_eq hWe]
    simp
  have h := trial_length_uniformity c9a2 c9a3 zeroChannel c3events (-2, 0)
    (0, 2) 1 ["E1"] rfl rfl rfl rfl rfl ha1s ha1e ha2s ha2e
  refine ⟨h.1, ?_⟩
  have hlen := h.2 ⟨[zTrial c9a2], zTimeAxis c9a2, ["trial_0_E1"]⟩ c3_E1_ok
  rw [c3_E1_ok]
  exact hlen

end SciPlatform
